import Mathlib

/-!
# Verification of the video-checker core (src/server.js)

Shallow embedding of the metadata-normalization and compliance-validation
logic of `src/server.js` (functions `analyzeVideoWithFFmpeg`,
`validateVideoSpecs`, `getFormatName`, `getCodecName`, `formatFileSize`),
together with theorems settling the frozen claims about it.

Modelling conventions:
* JavaScript numbers are modelled as `ℚ` (integers in `ℤ`/`ℕ` where the
  source only ever holds integers).  Where a claim's truth depends on
  IEEE-754 double rounding — the frame-rate tolerance comparison on line
  185 — the source's numeric literal `0.1` is translated to the exact
  rational value of its double representation (see `jsDouble01`), and the
  inputs of interest are the exact rational values of the doubles the
  JS program holds.
* JavaScript strings are Lean `String`s; `str.includes(sub)` is
  `jsIncludes`, `str.toLowerCase()` is `jsToLower`.
* The dynamically typed `value` field of a criterion result (a string for
  five criteria, a bare number for `frameCount`, line 192) is the sum type
  `DisplayValue`.
* `eval(videoStream.r_frame_rate)` (line 122) executes arbitrary
  JavaScript, so its result may depend on ambient state; the model
  `evalJsFrameRate` threads an explicit `JsWorld` (wall clock) and covers
  the expression shapes exercised by the development, see its docstring.
-/

/-- Ambient JavaScript state observable from `eval`-ed code: `nowMs` is
the value `Date.now()` returns (epoch milliseconds). -/
structure JsWorld where
  nowMs : ℕ
deriving DecidableEq

/-- `s.toLowerCase()` of JavaScript (ASCII case mapping suffices for the
codec/format tokens involved). -/
def jsToLower (s : String) : String := ⟨s.data.map Char.toLower⟩

/-- `s.toUpperCase()` of JavaScript. -/
def jsToUpper (s : String) : String := ⟨s.data.map Char.toUpper⟩

/-- `s.includes(sub)` of JavaScript: `sub` occurs contiguously in `s`.
Case-sensitive, exactly like the source operation. -/
def jsIncludes (s sub : String) : Bool := decide (sub.data <:+: s.data)

/-- Split a character list at every occurrence of the separator, keeping
empty segments — the semantics of JavaScript `s.split(sep)` for a
one-character separator. -/
def splitOnChar (sep : Char) : List Char → List (List Char)
  | [] => [[]]
  | c :: cs =>
    match splitOnChar sep cs with
    | [] => [[]]
    | h :: t => if c == sep then [] :: h :: t else (c :: h) :: t

/-- Parse a nonempty run of decimal digits; `none` on anything else. -/
def parseDecimal (l : List Char) : Option ℕ :=
  if l.isEmpty then none
  else if l.all Char.isDigit then
    some (l.foldl (fun a c => a * 10 + (c.toNat - 48)) 0)
  else none

/-- `Math.abs` on rationals. -/
def jsAbs (q : ℚ) : ℚ := if q < 0 then -q else q

/-- `Math.round(q)`: round half toward positive infinity, i.e.
`⌊q + 1/2⌋` (this is JavaScript's rounding rule). -/
def jsRound (q : ℚ) : ℤ := ⌊q + 1/2⌋

/-- `Math.round(q * 100) / 100` — the two-decimal rounding used for the
`duration` and `frameRate` fields (src/server.js lines 126 and 129). -/
def round2 (q : ℚ) : ℚ := (jsRound (q * 100) : ℚ) / 100

/-- The IEEE-754 double denoted by the JavaScript literal `0.1` on
src/server.js line 185: `3602879701896397 × 2⁻⁵⁵ ≈ 0.10000000000000000555`.
All other numeric literals of `validateVideoSpecs` (24, 2, 144,
100·1024·1024) are exactly representable doubles.  For every double `x`,
the JS computation `Math.abs(x - 24) <= 0.1` decides exactly
`|x - 24| ≤ jsDouble01` over `ℚ`: for `x ∈ [12, 48]` the subtraction
`x - 24` is exact by Sterbenz's lemma, and for doubles outside that range
`|x - 24| ≥ 12` with relative rounding error below `2⁻⁵²`, so the
comparison against `≈ 0.1` is unaffected by the rounding. -/
def jsDouble01 : ℚ := 3602879701896397 / 2 ^ 55

/-! ## Raw probe records (input of `analyzeVideoWithFFmpeg`) -/

/-- One entry of `metadata.streams` as consumed by the source: only the
fields read on src/server.js lines 113–134 are modelled.
`nb_frames` is ffprobe's frame-count field, a decimal-digit string when
present; `parseInt(videoStream.nb_frames)` therefore yields the number it
denotes, or `NaN` (falsy) when the field is absent — modelled as
`Option ℕ`.  `profile` is a string or absent. -/
structure RawStream where
  codec_type : String
  width : ℤ
  height : ℤ
  r_frame_rate : String
  nb_frames : Option ℕ
  codec_name : String
  profile : Option String
deriving DecidableEq

/-- `metadata.format` as consumed by the source.  `duration` is the full-
precision value `parseFloat(metadata.format.duration)` (line 121);
`bit_rate` is `parseInt(metadata.format.bit_rate)` when the field is a
numeric string, `none` when absent. -/
structure RawFormat where
  duration : ℚ
  bit_rate : Option ℕ
  format_name : String
deriving DecidableEq

/-- The raw ffprobe metadata record. -/
structure RawProbe where
  streams : List RawStream
  format : RawFormat
deriving DecidableEq

/-- Models `eval(videoStream.r_frame_rate)` (src/server.js line 122),
restricted to the argument shapes exercised in this development:

* `"a/b"` with `a`, `b` runs of decimal digits and `b ≠ 0` evaluates to
  the quotient `a / b` (the double rounding of the quotient is immaterial
  to every claim below, so the exact rational is used);
* `"a+b"` with `a`, `b` runs of decimal digits evaluates to `a + b` —
  JavaScript `eval` computes the sum instead of rejecting the string;
* a bare run of decimal digits evaluates to its value;
* `"Date.now()"` evaluates to the current wall-clock epoch milliseconds —
  JavaScript `eval` executes the call;
* `none` covers a thrown `SyntaxError` and every shape outside the
  modelled fragment (division by zero, which yields `Infinity` in JS, is
  left outside the fragment; no claim touches it). -/
def evalJsFrameRate (s : String) (w : JsWorld) : Option ℚ :=
  if s.data == "Date.now()".data then some (w.nowMs : ℚ)
  else
    match splitOnChar '/' s.data with
    | [a, b] =>
      match parseDecimal a, parseDecimal b with
      | some x, some y => if y == 0 then none else some ((x : ℚ) / (y : ℚ))
      | _, _ => none
    | [c] =>
      match splitOnChar '+' c with
      | [a, b] =>
        match parseDecimal a, parseDecimal b with
        | some x, some y => some ((x : ℚ) + (y : ℚ))
        | _, _ => none
      | [d] => (parseDecimal d).map (fun n => (n : ℚ))
      | _ => none
    | _ => none

/-- Modelled from the spec (§4.1, §8): the strict `"integer/integer"`
frame-rate parser the specification requires in place of dynamic
evaluation.  This definition follows the spec's words and is **not**
present in src/server.js (which uses `eval` instead); it accepts exactly
two nonempty decimal-digit runs separated by one `/` with nonzero
denominator, and returns the quotient. -/
def parseFrameRateStrict (s : String) : Option ℚ :=
  match splitOnChar '/' s.data with
  | [a, b] =>
    match parseDecimal a, parseDecimal b with
    | some x, some y => if y == 0 then none else some ((x : ℚ) / (y : ℚ))
    | _, _ => none
  | _ => none

/-! ## Normalized video info (output of `analyzeVideoWithFFmpeg`) -/

/-- The `videoInfo` object built on src/server.js lines 125–135. -/
structure AnalysisInfo where
  duration : ℚ
  width : ℤ
  height : ℤ
  frameRate : ℚ
  frameCount : ℤ
  codec : String
  profile : Option String
  bitRate : Option ℕ
  format : String
deriving DecidableEq

/-- `analyzeVideoWithFFmpeg` (src/server.js lines 104–143), from the point
where the ffprobe callback has delivered `metadata`:
* pick the first stream with `codec_type === 'video'`; reject (`none`,
  the «Aucun flux vidéo trouvé» error) when there is none;
* `frameRate := eval(videoStream.r_frame_rate)` — modelled by
  `evalJsFrameRate`, which needs the ambient `JsWorld`; `none` is the
  rejection path through the `catch` block;
* `frameCount := parseInt(videoStream.nb_frames) || Math.round(duration *
  frameRate)`: the explicit count when present and nonzero (a present
  count parses to its value, which is falsy exactly when it is 0),
  otherwise the rounded product with the *full-precision* duration;
* `duration` and `frameRate` fields are rounded to 2 decimals;
* `profile || null` and `parseInt(bit_rate) || null` coerce an empty
  string / a zero to `null`. -/
def analyzeVideoWithFFmpeg (metadata : RawProbe) (w : JsWorld) :
    Option AnalysisInfo :=
  match metadata.streams.find? (fun s => s.codec_type == "video") with
  | none => none
  | some videoStream =>
    match evalJsFrameRate videoStream.r_frame_rate w with
    | none => none
    | some frameRate =>
      let duration := metadata.format.duration
      let frameCount : ℤ :=
        match videoStream.nb_frames with
        | some n => if n == 0 then jsRound (duration * frameRate) else (n : ℤ)
        | none => jsRound (duration * frameRate)
      some
        { duration := round2 duration
          width := videoStream.width
          height := videoStream.height
          frameRate := round2 frameRate
          frameCount := frameCount
          codec := videoStream.codec_name
          profile :=
            match videoStream.profile with
            | some p => if p == "" then none else some p
            | none => none
          bitRate :=
            match metadata.format.bit_rate with
            | some b => if b == 0 then none else some b
            | none => none
          format := metadata.format.format_name }

/-- The `fullVideoInfo` object (src/server.js lines 72–77): the analysis
result spread together with the upload-supplied file name, size and MIME
type. -/
structure VideoInfo extends AnalysisInfo where
  fileName : String
  fileSize : ℤ
  mimeType : String
deriving DecidableEq

/-! ## Compliance validation (`validateVideoSpecs`) -/

/-- A criterion's displayed value: the source stores template-literal
strings for five criteria but the bare number `videoInfo.frameCount` for
the sixth (src/server.js line 192), so the field is dynamically typed. -/
inductive DisplayValue where
  | str (s : String)
  | num (n : ℤ)
deriving DecidableEq

/-- `true` exactly on string-valued display values. -/
def DisplayValue.isStr : DisplayValue → Bool
  | .str _ => true
  | .num _ => false

/-- One entry of the `results` object (the source also stores a constant
`exact: true` on every entry; it is read by nothing and omitted here). -/
structure CriterionResult where
  valid : Bool
  value : DisplayValue
  requirement : String
deriving DecidableEq

/-- The `criteria` object of `validateVideoSpecs`
(src/server.js lines 147–158). -/
structure Criteria where
  resolutions : List (ℤ × ℤ)
  frameRate : ℚ
  frameCount : ℚ
  duration : ℚ
  maxFileSize : ℤ
  allowedFormats : List String
  allowedCodecs : List String

/-- The (only) criteria value the source ever builds. -/
def criteria : Criteria :=
  { resolutions := [(1920, 810), (3840, 1620)]
    frameRate := 24
    frameCount := 144
    duration := 6
    maxFileSize := 100 * 1024 * 1024
    allowedFormats := ["mp4", "mov", "quicktime"]
    allowedCodecs := ["h264", "hevc", "h265"] }

/-- `formatFileSize` (src/server.js lines 226–232): render a byte count in
the largest unit.  The unit index `Math.floor(Math.log(bytes)/Math.log(1024))`
equals `Nat.log 1024 bytes` for the positive integer inputs in range, and
the decimal rendering of `parseFloat((bytes / 1024^i).toFixed(2))` is
reproduced as: round to 2 decimals, print with trailing zeros trimmed.
No claim inspects the digits of this string; the claims only use that the
function returns a string. -/
def formatFileSize (bytes : ℤ) : String :=
  if bytes == 0 then "0 Bytes"
  else
    let i := Nat.log 1024 bytes.toNat
    let sizes := ["Bytes", "KB", "MB", "GB"]
    let n : ℤ := jsRound ((bytes : ℚ) / (1024 : ℚ) ^ i * 100)
    let whole := n / 100
    let frac := (n % 100).toNat
    let numStr :=
      if frac == 0 then toString whole
      else if frac % 10 == 0 then toString whole ++ "." ++ toString (frac / 10)
      else if frac < 10 then toString whole ++ ".0" ++ toString frac
      else toString whole ++ "." ++ toString frac
    numStr ++ " " ++ sizes.getD i "undefined"

/-- `getFormatName` (src/server.js lines 234–238).  The `mp4` test comes
first, so a container string holding both `mp4` and `mov` tokens renders
as `"MP4"`.  The `format` argument is lower-cased for matching; the
`mimeType` argument is matched as-is. -/
def getFormatName (format mimeType : String) : String :=
  if jsIncludes (jsToLower format) "mp4" || jsIncludes mimeType "mp4" then "MP4"
  else if jsIncludes (jsToLower format) "mov"
      || jsIncludes (jsToLower format) "quicktime"
      || jsIncludes mimeType "quicktime" then "MOV"
  else jsToUpper format

/-- `getCodecName` (src/server.js lines 240–256): first alias of the map
whose key occurs in the lower-cased codec name, in the map's insertion
order; otherwise the upper-cased raw name. -/
def getCodecName (codec : String) : String :=
  let codecMap : List (String × String) :=
    [("h264", "H.264"), ("avc", "H.264"), ("avc1", "H.264"),
     ("hevc", "H.265"), ("h265", "H.265"), ("hev1", "H.265"),
     ("hvc1", "H.265")]
  let lowerCodec := jsToLower codec
  match codecMap.find? (fun kv => jsIncludes lowerCodec kv.1) with
  | some kv => kv.2
  | none => jsToUpper codec

/-- The `results` object of `validateVideoSpecs` plus its `overall`
field. -/
structure ValidationResults where
  fileSize : CriterionResult
  format : CriterionResult
  resolution : CriterionResult
  frameRate : CriterionResult
  frameCount : CriterionResult
  codec : CriterionResult
  overall : Bool
deriving DecidableEq

/-- `validateVideoSpecs` (src/server.js lines 146–219).  Notes on
fidelity:
* format (lines 167–175): the container name is lower-cased before the
  substring test, the MIME type is **not** (`videoInfo.mimeType.includes(format)`);
* frameRate (line 185): `Math.abs(videoInfo.frameRate - 24) <= 0.1` in
  doubles, i.e. `|x - 24| ≤ jsDouble01` (see `jsDouble01`);
* codec (lines 197–206): each configured token check also tries the
  unconditional `avc` / `hevc` fallbacks;
* overall (lines 214–216): `Object.keys(results).every(k => k === 'overall'
  || results[k].valid)` runs while the keys are exactly the six criteria,
  so it is their conjunction (the `k === 'overall'` guard is vacuous). -/
def validateVideoSpecs (videoInfo : VideoInfo) : ValidationResults :=
  let fileSizeRes : CriterionResult :=
    { valid := decide (videoInfo.fileSize ≤ criteria.maxFileSize)
      value := .str (formatFileSize videoInfo.fileSize)
      requirement := "< 100MB" }
  let formatRes : CriterionResult :=
    { valid := criteria.allowedFormats.any (fun format =>
        jsIncludes (jsToLower videoInfo.format) format
          || jsIncludes videoInfo.mimeType format)
      value := .str (getFormatName videoInfo.format videoInfo.mimeType)
      requirement := "MP4 or MOV" }
  let resolutionRes : CriterionResult :=
    { valid := criteria.resolutions.any (fun res =>
        res.1 == videoInfo.width && res.2 == videoInfo.height)
      value := .str (toString videoInfo.width ++ "×" ++ toString videoInfo.height)
      requirement := "1920×810 or 3840×1620" }
  let frameRateRes : CriterionResult :=
    { valid := decide (jsAbs (videoInfo.frameRate - criteria.frameRate) ≤ jsDouble01)
      value := .str (toString videoInfo.frameRate ++ " fps")
      requirement := "24 fps" }
  let frameCountRes : CriterionResult :=
    { valid := decide (jsAbs ((videoInfo.frameCount : ℚ) - criteria.frameCount) ≤ 2)
      value := .num videoInfo.frameCount
      requirement := "144 frames" }
  let codecRes : CriterionResult :=
    { valid := criteria.allowedCodecs.any (fun codec =>
        jsIncludes (jsToLower videoInfo.codec) (jsToLower codec)
          || jsIncludes (jsToLower videoInfo.codec) "avc"
          || jsIncludes (jsToLower videoInfo.codec) "hevc")
      value := .str (getCodecName videoInfo.codec)
      requirement := "H.264 or H.265" }
  { fileSize := fileSizeRes
    format := formatRes
    resolution := resolutionRes
    frameRate := frameRateRes
    frameCount := frameCountRes
    codec := codecRes
    overall := fileSizeRes.valid && formatRes.valid && resolutionRes.valid
      && frameRateRes.valid && frameCountRes.valid && codecRes.valid }

/-! ## Concrete fixtures -/

/-- A descriptor meeting every default criterion: 1920×810, an mp4/mov
container, 50 MiB, 24 fps, 144 frames, h264. -/
def dBase : VideoInfo :=
  { duration := 6, width := 1920, height := 810, frameRate := 24,
    frameCount := 144, codec := "h264", profile := none, bitRate := none,
    format := "mov,mp4,m4a,3gp,3g2,mj2", fileName := "clip.mp4",
    fileSize := 52428800, mimeType := "video/mp4" }

/-- A raw probe whose video stream carries the malformed frame-rate
string `"24+1"`. -/
def probeMalformed : RawProbe :=
  { streams := [{ codec_type := "video", width := 1920, height := 810,
                  r_frame_rate := "24+1", nb_frames := some 144,
                  codec_name := "h264", profile := none }]
    format := { duration := 6, bit_rate := none,
                format_name := "mov,mp4,m4a,3gp,3g2,mj2" } }

/-- A raw probe whose video stream carries the frame-rate string
`"Date.now()"`. -/
def probeClock : RawProbe :=
  { streams := [{ codec_type := "video", width := 1920, height := 810,
                  r_frame_rate := "Date.now()", nb_frames := none,
                  codec_name := "h264", profile := none }]
    format := { duration := 6, bit_rate := none,
                format_name := "mov,mp4,m4a,3gp,3g2,mj2" } }

/-- Video stream with no explicit frame count and frame rate `"24/1"`. -/
def stream8 : RawStream :=
  { codec_type := "video", width := 1920, height := 810,
    r_frame_rate := "24/1", nb_frames := none,
    codec_name := "h264", profile := none }

/-- Probe around `stream8` with full-precision duration 6.0215 s: it
rounds to 6.02 for the display field, and 6.0215 × 24 = 144.516 rounds to
145 while 6.02 × 24 = 144.48 would round to 144 — separating the
full-precision duration from the displayed one in the frame-count
fallback. -/
def probe8 : RawProbe :=
  { streams := [stream8]
    format := { duration := 12043/2000, bit_rate := none,
                format_name := "mov,mp4,m4a,3gp,3g2,mj2" } }

/-- The normalized record `analyzeVideoWithFFmpeg` produces for
`probe8`. -/
def info8 : AnalysisInfo :=
  { duration := 301/50, width := 1920, height := 810, frameRate := 24,
    frameCount := 145, codec := "h264", profile := none, bitRate := none,
    format := "mov,mp4,m4a,3gp,3g2,mj2" }

/-! ## Claim theorems -/

/-- C1 (code bug in src/server.js line 122): the claim demands that the
frame-rate field be parsed strictly as an `integer/integer` ratio and
that malformed frame-rate strings make normalization fail, never being
evaluated as executable code.  The source instead passes the string to
`eval`.  At the failing input `"24+1"` (digits plus a non-slash
character): the ratio shape `"24/1"` does evaluate to 24 as the claim
expects, but the malformed `"24+1"` is *executed*, normalization
succeeds, and the resulting descriptor has frameRate 25 — while the
strict parser required by the claim rejects the string. -/
theorem c1_frame_rate_eval_executes_code :
    (∀ w : JsWorld, evalJsFrameRate "24/1" w = some 24)
    ∧ round2 ((24000 : ℚ) / 1001) = 2398 / 100
    ∧ (analyzeVideoWithFFmpeg probeMalformed ⟨0⟩).map (fun vi => vi.frameRate)
        = some 25
    ∧ parseFrameRateStrict "24+1" = none := by
  refine ⟨fun w => ?_, ?_, ?_, by decide⟩
  · simp +decide [evalJsFrameRate, splitOnChar, parseDecimal]
  · simp [round2, jsRound]
    norm_num [Int.floor_eq_iff]
  · simp +decide [analyzeVideoWithFFmpeg, evalJsFrameRate, splitOnChar, parseDecimal,
      probeMalformed, round2, jsRound]
    norm_num [Int.floor_eq_iff]

/-- C2 counterexample: the claim asserts that codec name `"hvc1"` yields
`codec.valid = true`; on the code it yields `false`, because `"hvc1"`
contains none of the configured tokens `h264`/`hevc`/`h265` nor the
fallback substrings `avc`/`hevc` (src/server.js lines 197–206), even
though the display map renders it as `"H.265"`. -/
theorem c2_hvc1_counterexample :
    (validateVideoSpecs { dBase with codec := "hvc1" }).codec.valid = false
    ∧ (validateVideoSpecs { dBase with codec := "hvc1" }).codec.value
        = DisplayValue.str "H.265" := by
  constructor
  · simp +decide [validateVideoSpecs, criteria, dBase]
  · simp +decide [validateVideoSpecs, dBase, getCodecName]

/-- C2 amended: under the default criteria, codec `"avc1"` yields
`valid = true` with display `"H.264"`, codec `"vp9"` yields
`valid = false` with display `"VP9"` — as claimed — but codec `"hvc1"`
yields `valid = false` (with display `"H.265"`), because the validity
check only looks for the substrings `h264`, `hevc`, `h265`, `avc`. -/
theorem c2_codec_criterion_amended :
    ((validateVideoSpecs { dBase with codec := "avc1" }).codec.valid = true
      ∧ (validateVideoSpecs { dBase with codec := "avc1" }).codec.value
          = DisplayValue.str "H.264")
    ∧ ((validateVideoSpecs { dBase with codec := "hvc1" }).codec.valid = false
      ∧ (validateVideoSpecs { dBase with codec := "hvc1" }).codec.value
          = DisplayValue.str "H.265")
    ∧ ((validateVideoSpecs { dBase with codec := "vp9" }).codec.valid = false
      ∧ (validateVideoSpecs { dBase with codec := "vp9" }).codec.value
          = DisplayValue.str "VP9") := by
  refine ⟨⟨?_, ?_⟩, ⟨?_, ?_⟩, ⟨?_, ?_⟩⟩ <;>
    simp +decide [validateVideoSpecs, criteria, dBase, getCodecName]

/-- C3 counterexample: the claim asserts that a descriptor with frameRate
23.9 passes the frame-rate criterion.  A JavaScript number displayed as
`23.9` is the IEEE-754 double `3363625971692339 × 2⁻⁴⁷ =
23.899999999999998578…`; the code computes `Math.abs(23.9 - 24)` exactly
(Sterbenz) as `0.10000000000000142…`, which exceeds the double value of
the literal `0.1` (`jsDouble01 ≈ 0.10000000000000000555`), so the
criterion evaluates to **invalid**, contradicting the claim. -/
theorem c3_frameRate_239_counterexample :
    (validateVideoSpecs
        { dBase with frameRate := 3363625971692339 / 2 ^ 47 }).frameRate.valid
      = false := by
  simp [validateVideoSpecs, criteria, jsAbs, jsDouble01, dBase]
  rw [if_pos (by norm_num)]
  norm_num

/-- C3 amended: the frameRate criterion is valid exactly when
`|frameRate − 24| ≤ jsDouble01` holds in IEEE-754 double arithmetic
(`jsDouble01` being the double denoted by the literal `0.1`, slightly
above 1/10).  Consequently the doubles written `24.1` (`3391773469363405
× 2⁻⁴⁷`), `23.89` and `24.11` are all invalid — the two nominal boundary
values `23.9`/`24.1` fail because their exact distance to 24 is
`0.1 + 0.4 × 2⁻⁴⁸ > jsDouble01` — while doubles such as `23.91`
(`6730066693151785 × 2⁻⁴⁸`), `24.09` and `24` itself are valid. -/
theorem c3_frameRate_amended :
    (∀ d : VideoInfo, (validateVideoSpecs d).frameRate.valid = true ↔
        jsAbs (d.frameRate - 24) ≤ jsDouble01)
    ∧ (validateVideoSpecs
        { dBase with frameRate := 3391773469363405 / 2 ^ 47 }).frameRate.valid = false
    ∧ (validateVideoSpecs
        { dBase with frameRate := 1681109298404393 / 2 ^ 46 }).frameRate.valid = false
    ∧ (validateVideoSpecs
        { dBase with frameRate := 1696590422123479 / 2 ^ 46 }).frameRate.valid = false
    ∧ (validateVideoSpecs
        { dBase with frameRate := 6730066693151785 / 2 ^ 48 }).frameRate.valid = true
    ∧ (validateVideoSpecs
        { dBase with frameRate := 6780732188959703 / 2 ^ 48 }).frameRate.valid = true
    ∧ (validateVideoSpecs dBase).frameRate.valid = true := by
  refine ⟨fun d => by simp [validateVideoSpecs, criteria], ?_, ?_, ?_, ?_, ?_, ?_⟩
  · simp [validateVideoSpecs, criteria, jsAbs, jsDouble01, dBase]
    rw [if_neg (by norm_num)]
    norm_num
  · simp [validateVideoSpecs, criteria, jsAbs, jsDouble01, dBase]
    rw [if_pos (by norm_num)]
    norm_num
  · simp [validateVideoSpecs, criteria, jsAbs, jsDouble01, dBase]
    rw [if_neg (by norm_num)]
    norm_num
  · simp [validateVideoSpecs, criteria, jsAbs, jsDouble01, dBase]
    rw [if_pos (by norm_num)]
    norm_num
  · simp [validateVideoSpecs, criteria, jsAbs, jsDouble01, dBase]
    rw [if_neg (by norm_num)]
    norm_num
  · simp [validateVideoSpecs, criteria, jsAbs, jsDouble01, dBase]
    norm_num

/-- C4 (code bug, same root cause as C1): the claim asserts that
normalization is deterministic for **every** raw probe input, including
its frame-rate string.  Because the source passes that string to `eval`
(src/server.js line 122), the raw input whose video stream carries
`r_frame_rate = "Date.now()"` is normalized to a descriptor containing
the current wall-clock time: two runs at different clock values produce
different descriptors.  The strict parser the spec prescribes would
instead reject the string, restoring determinism. -/
theorem c4_normalization_wallclock_dependent :
    analyzeVideoWithFFmpeg probeClock ⟨0⟩ ≠ analyzeVideoWithFFmpeg probeClock ⟨1⟩
    ∧ parseFrameRateStrict "Date.now()" = none := by
  constructor
  · intro h
    have h0 : (analyzeVideoWithFFmpeg probeClock ⟨0⟩).map (fun vi => vi.frameRate)
        = some 0 := by
      simp +decide [analyzeVideoWithFFmpeg, evalJsFrameRate, probeClock, round2, jsRound]
      norm_num [Int.floor_eq_iff]
    have h1 : (analyzeVideoWithFFmpeg probeClock ⟨1⟩).map (fun vi => vi.frameRate)
        = some 1 := by
      simp +decide [analyzeVideoWithFFmpeg, evalJsFrameRate, probeClock, round2, jsRound]
      norm_num [Int.floor_eq_iff]
    rw [h, h1] at h0
    exact absurd (Option.some.inj h0) (by norm_num)
  · decide

/-- C5 counterexample: the claim asserts the format match is
case-insensitive for **both** containerFormat and mimeType.  For the
descriptor with containerFormat `"xyz"` and mimeType `"video/MP4"`, the
token `"mp4"` occurs case-insensitively in the mimeType (second
conjunct), yet the criterion evaluates to invalid, because the source
lower-cases only the container name and matches the mimeType verbatim
(src/server.js line 170). -/
theorem c5_mimeType_case_counterexample :
    (validateVideoSpecs
        { dBase with format := "xyz", mimeType := "video/MP4" }).format.valid = false
    ∧ jsIncludes (jsToLower "video/MP4") "mp4" = true := by
  refine ⟨?_, by decide⟩
  simp +decide [validateVideoSpecs, criteria, dBase]

/-- C5 amended: the format criterion is valid iff some allowed token
(`mp4`, `mov`, `quicktime`) occurs in the **lower-cased** containerFormat
or occurs **verbatim** (case-sensitively) in the mimeType. -/
theorem c5_format_criterion_amended :
    ∀ d : VideoInfo, (validateVideoSpecs d).format.valid = true ↔
      ∃ t ∈ ["mp4", "mov", "quicktime"],
        (t.data <:+: (jsToLower d.format).data ∨ t.data <:+: d.mimeType.data) := by
  intro d
  simp [validateVideoSpecs, criteria, jsIncludes, List.any_eq_true]

/-- C6: the overall verdict is the conjunction of the six criteria
(src/server.js lines 214–216; at the moment `overall` is computed the
result object holds exactly the six criterion keys), and the claim's
example holds: a descriptor meeting every rule except a 200 MB file size
(209715200 bytes) gets `overall = false` with fileSize the only invalid
criterion. -/
theorem c6_overall_conjunction :
    (∀ d : VideoInfo, (validateVideoSpecs d).overall = true ↔
      ((validateVideoSpecs d).resolution.valid = true
        ∧ (validateVideoSpecs d).format.valid = true
        ∧ (validateVideoSpecs d).fileSize.valid = true
        ∧ (validateVideoSpecs d).frameRate.valid = true
        ∧ (validateVideoSpecs d).frameCount.valid = true
        ∧ (validateVideoSpecs d).codec.valid = true))
    ∧ (validateVideoSpecs { dBase with fileSize := 209715200 }).overall = false
    ∧ (validateVideoSpecs { dBase with fileSize := 209715200 }).fileSize.valid = false
    ∧ (validateVideoSpecs { dBase with fileSize := 209715200 }).resolution.valid = true
    ∧ (validateVideoSpecs { dBase with fileSize := 209715200 }).format.valid = true
    ∧ (validateVideoSpecs { dBase with fileSize := 209715200 }).frameRate.valid = true
    ∧ (validateVideoSpecs { dBase with fileSize := 209715200 }).frameCount.valid = true
    ∧ (validateVideoSpecs { dBase with fileSize := 209715200 }).codec.valid = true := by
  refine ⟨fun d => ?_, ?_, ?_, ?_, ?_, ?_, ?_, ?_⟩
  · simp only [validateVideoSpecs, Bool.and_eq_true]
    tauto
  · simp +decide [validateVideoSpecs, criteria, dBase]
  · simp +decide [validateVideoSpecs, criteria, dBase]
  · simp +decide [validateVideoSpecs, criteria, dBase]
  · simp +decide [validateVideoSpecs, criteria, dBase]
  · simp [validateVideoSpecs, criteria, dBase, jsAbs, jsDouble01]
    norm_num
  · simp [validateVideoSpecs, criteria, dBase, jsAbs]
  · simp +decide [validateVideoSpecs, criteria, dBase]

/-- C7: the fileSize criterion is valid exactly when
`fileSizeBytes ≤ 104857600 = 100 × 1024 × 1024` (src/server.js lines
155 and 162), and a descriptor of exactly 104857600 bytes passes — the
comparison is `<=`, the boundary is included. -/
theorem c7_fileSize_boundary :
    (∀ d : VideoInfo,
      (validateVideoSpecs d).fileSize.valid = true ↔ d.fileSize ≤ 104857600)
    ∧ (validateVideoSpecs { dBase with fileSize := 104857600 }).fileSize.valid
        = true := by
  refine ⟨fun d => ?_, ?_⟩
  · simp [validateVideoSpecs, criteria]
  · simp +decide [validateVideoSpecs, criteria, dBase]

/-- C8: for any raw probe whose video stream was found and whose
frame-rate string evaluated to `fr`, the normalized `frameCount` is the
stream's explicit count whenever that count is present and positive, and
otherwise (`nb_frames` absent, or present as 0 — a falsy `parseInt`
result) is `Math.round(duration × fr)` computed from the full-precision
`metadata.format.duration`, not from the 2-decimal display rounding
(src/server.js lines 121–123). -/
theorem c8_frameCount_derivation (metadata : RawProbe) (w : JsWorld)
    (vs : RawStream) (fr : ℚ) (vi : AnalysisInfo)
    (hvs : metadata.streams.find? (fun s => s.codec_type == "video") = some vs)
    (hfr : evalJsFrameRate vs.r_frame_rate w = some fr)
    (hvi : analyzeVideoWithFFmpeg metadata w = some vi) :
    (∀ n : ℕ, vs.nb_frames = some n → 0 < n → vi.frameCount = (n : ℤ))
    ∧ ((vs.nb_frames = none ∨ vs.nb_frames = some 0) →
        vi.frameCount = jsRound (metadata.format.duration * fr)) := by
  simp only [analyzeVideoWithFFmpeg, hvs, hfr] at hvi
  have hbig := Option.some.inj hvi
  subst hbig
  constructor
  · intro n hn hpos
    simp [hn, hpos.ne']
  · rintro (h | h) <;> simp [h]

/-- Witness for C8 at `probe8` (no explicit frame count, frame rate
`"24/1"`, full-precision duration 6.0215 s): the normalized record is
`info8` and its frameCount is `round(6.0215 × 24) = round(144.516) = 145`
— note the display duration 6.02 would have produced
`round(144.48) = 144`, so the full-precision value is what is used. -/
theorem c8_frameCount_derivation_witness :
    info8.frameCount = jsRound ((12043 / 2000 : ℚ) * ((24 : ℚ) / (1 : ℚ)))
    ∧ jsRound ((12043 / 2000 : ℚ) * ((24 : ℚ) / (1 : ℚ))) = 145 := by
  constructor
  · exact (c8_frameCount_derivation probe8 ⟨0⟩ stream8 ((24 : ℚ) / (1 : ℚ)) info8
      (by decide)
      (by simp +decide [evalJsFrameRate, splitOnChar, parseDecimal, stream8])
      (by simp +decide [analyzeVideoWithFFmpeg, evalJsFrameRate, splitOnChar,
            parseDecimal, probe8, stream8, info8, round2, jsRound]
          norm_num [Int.floor_eq_iff])).2 (Or.inl rfl)
  · simp [jsRound]
    norm_num [Int.floor_eq_iff]

/-- C9 counterexample: the claim asserts every criterion's `value` field
is a display string; but the frameCount criterion's value is the bare
number `videoInfo.frameCount` (src/server.js line 192) — here the number
144, not a string. -/
theorem c9_frameCount_value_counterexample :
    (validateVideoSpecs dBase).frameCount.value = DisplayValue.num 144
    ∧ DisplayValue.isStr ((validateVideoSpecs dBase).frameCount.value) = false := by
  constructor
  · simp [validateVideoSpecs, dBase]
  · simp [validateVideoSpecs, dBase, DisplayValue.isStr]

/-- C9 amended: for every descriptor, the `value` fields of the
resolution, format, fileSize, frameRate and codec criteria are display
strings, while the frameCount criterion's `value` is the bare number
`videoInfo.frameCount`. -/
theorem c9_value_shapes_amended :
    ∀ d : VideoInfo,
      DisplayValue.isStr ((validateVideoSpecs d).resolution.value) = true
      ∧ DisplayValue.isStr ((validateVideoSpecs d).format.value) = true
      ∧ DisplayValue.isStr ((validateVideoSpecs d).fileSize.value) = true
      ∧ DisplayValue.isStr ((validateVideoSpecs d).frameRate.value) = true
      ∧ DisplayValue.isStr ((validateVideoSpecs d).codec.value) = true
      ∧ DisplayValue.isStr ((validateVideoSpecs d).frameCount.value) = false := by
  intro d
  simp [validateVideoSpecs, DisplayValue.isStr]

/-- C10: whenever the lower-cased container format string contains the
token `mp4` — even if it also contains `mov` or `quicktime`, as in
ffprobe's typical `"mov,mp4,m4a,3gp,3g2,mj2"` — the format display value
is `"MP4"`, because `getFormatName` tests the mp4 tokens before the
mov/quicktime tokens (src/server.js lines 235–236). -/
theorem c10_mp4_precedence (d : VideoInfo)
    (h1 : jsIncludes (jsToLower d.format) "mp4" = true)
    (_h2 : jsIncludes (jsToLower d.format) "mov" = true
        ∨ jsIncludes (jsToLower d.format) "quicktime" = true) :
    (validateVideoSpecs d).format.value = DisplayValue.str "MP4" := by
  simp [validateVideoSpecs, getFormatName, h1]

/-- Witness for C10: the descriptor whose container format is the
typical probe string `"mov,mp4,m4a,3gp,3g2,mj2"` (containing both the
mp4 and mov tokens) displays as `"MP4"`. -/
theorem c10_mp4_precedence_witness :
    (validateVideoSpecs dBase).format.value = DisplayValue.str "MP4" :=
  c10_mp4_precedence dBase (by decide) (Or.inl (by decide))
